import Mathlib

/-!
Shallow embedding of the BlackRoad content-scheduler core
(`src/types.ts`, `src/durable-objects/repo-sync-engine.ts`,
`src/durable-objects/job-coordinator.ts`, `src/durable-objects/self-healer.ts`,
`src/queues/processors.ts`, `src/scrapers/github.ts`) and proofs about it.

Modelling conventions:
* JS numbers that the code only ever uses as integers (scores, counters,
  millisecond timestamps) are `Int` or `Nat`.
* `Map<string, T>` becomes an association list `List (String × T)` with
  `Map.set` semantics (replace in place, else append).
* `crypto.randomUUID()` and wall-clock reads become explicit parameters
  (`freshId`, `now`, `dt`).
* Effects (queue sends, KV writes, message ack/retry) are returned as data.
* Fields that no verified claim touches (payload bags, etags, messages of
  issues are kept, but `result`/`stackTrace`/per-strategy stats are omitted)
  are dropped only where they cannot influence the modelled control flow.
-/

namespace ContentScheduler

/-- Severity of a cohesiveness issue (`CohesivenessIssue.severity` in `src/types.ts`). -/
inductive Severity
  | info
  | warning
  | critical
  deriving DecidableEq, Repr

/-- Issue kinds actually produced by the scorers (`IssueType` in `src/types.ts`,
restricted to the constructors the code emits). -/
inductive IssueType
  | missing_config
  | structure_mismatch
  deriving DecidableEq, Repr

/-- One file of a repository tree (`FileEntry` in `src/types.ts`); only `path`
feeds the cohesiveness checks. -/
structure FileEntry where
  path : String
  deriving DecidableEq, Repr

/-- Repository structure (`RepoStructure` in `src/types.ts`). `configFiles` and
`primaryLanguage` are carried by the source but never read by the scorers. -/
structure RepoStructure where
  files : List FileEntry
  directories : List String
  hasPackageJson : Bool
  hasWranglerConfig : Bool
  hasTsConfig : Bool
  deriving DecidableEq, Repr

/-- A cohesiveness issue (`CohesivenessIssue` in `src/types.ts`). -/
structure CohesivenessIssue where
  type : IssueType
  severity : Severity
  message : String
  suggestion : String
  autoFixable : Bool
  deriving DecidableEq, Repr

/-- A cohesiveness score (`CohesivenessScore` in `src/types.ts`). The source
field `structure` is renamed `structureScore` because `structure` is a Lean
keyword; `lastCheckedAt` (a wall-clock stamp) is dropped. -/
structure CohesivenessScore where
  overall : Int
  structureScore : Int
  naming : Int
  dependencies : Int
  config : Int
  issues : List CohesivenessIssue
  deriving DecidableEq, Repr

/-- JavaScript `Math.round (x / n)` for integer `x` and positive integer `n`:
floor of `x / n + 1 / 2`, i.e. rounding halves toward positive infinity. -/
def jsRoundDiv (x n : Int) : Int := Int.fdiv (2 * x + n) (2 * n)

/-- JavaScript `s.toLowerCase()`, modelled character-wise over the string data
(the paths involved are ASCII, where the two agree). -/
def jsToLowerCase (s : String) : String := ⟨s.data.map Char.toLower⟩

/-- JavaScript `s.startsWith(p)`, modelled over the character lists so that it
computes inside the kernel. -/
def jsStartsWith (s p : String) : Bool := List.isPrefixOf p.data s.data

/-- The `hasSrcDir` check shared by both scorers:
`structure.directories.some((d) => d === 'src' || d.startsWith('src/'))`. -/
def hasSrcDir (s : RepoStructure) : Bool :=
  s.directories.any fun d => d == "src" || jsStartsWith d "src/"

/-- The README check of `calculateCohesiveness`:
`structure.files.some((f) => f.path.toLowerCase() === 'readme.md')`. -/
def hasReadme (s : RepoStructure) : Bool :=
  s.files.any fun f => jsToLowerCase f.path == "readme.md"

/-- Issue pushed when `package.json` is missing (both scorers). -/
def missingPackageJsonIssue : CohesivenessIssue :=
  ⟨.missing_config, .warning, "Missing package.json",
    "Add package.json for dependency management", true⟩

/-- Issue pushed when `tsconfig.json` is missing (engine scorer). -/
def missingTsConfigIssue : CohesivenessIssue :=
  ⟨.missing_config, .info, "Missing tsconfig.json",
    "Add TypeScript configuration for type safety", true⟩

/-- Issue pushed when `wrangler.toml` is missing (both scorers). -/
def missingWranglerIssue : CohesivenessIssue :=
  ⟨.missing_config, .warning, "Missing wrangler.toml",
    "Add Cloudflare Workers configuration", true⟩

/-- Issue pushed when there is no `src/` directory and more than 5 files. -/
def noSrcDirIssue : CohesivenessIssue :=
  ⟨.structure_mismatch, .info, "No src/ directory found",
    "Consider organizing source files in src/", false⟩

/-- Issue pushed when no `README.md` is present (engine scorer only). -/
def missingReadmeIssue : CohesivenessIssue :=
  ⟨.missing_config, .info, "Missing README.md", "Add documentation", true⟩

/-- `RepoSyncEngine.calculateCohesiveness` (repo-sync-engine.ts, lines 253-338).
Subscores start at 100; each failed check subtracts its penalty and pushes its
issue, in source order; `overall = Math.round((structure + naming + deps + config) / 4)`. -/
def calculateCohesiveness (s : RepoStructure) : CohesivenessScore :=
  let configScore : Int :=
    100 - (if s.hasPackageJson then 0 else 30)
        - (if s.hasTsConfig then 0 else 20)
        - (if s.hasWranglerConfig then 0 else 25)
  let structureScore : Int :=
    100 - (if !hasSrcDir s && decide (s.files.length > 5) then 20 else 0)
        - (if hasReadme s then 0 else 10)
  let issues : List CohesivenessIssue :=
    (if s.hasPackageJson then [] else [missingPackageJsonIssue]) ++
    (if s.hasTsConfig then [] else [missingTsConfigIssue]) ++
    (if s.hasWranglerConfig then [] else [missingWranglerIssue]) ++
    (if !hasSrcDir s && decide (s.files.length > 5) then [noSrcDirIssue] else []) ++
    (if hasReadme s then [] else [missingReadmeIssue])
  { overall := jsRoundDiv (structureScore + 100 + 100 + configScore) 4
    structureScore := structureScore
    naming := 100
    dependencies := 100
    config := configScore
    issues := issues }

/-- `GitHubScraper.calculateInitialCohesiveness` (scrapers/github.ts, lines
329-391). Same config and src/ checks as the engine scorer, but no README
check, and `overall = Math.round((configScore + structureScore + 100 + 100) / 4)`. -/
def calculateInitialCohesiveness (s : RepoStructure) : CohesivenessScore :=
  let configScore : Int :=
    100 - (if s.hasPackageJson then 0 else 30)
        - (if s.hasTsConfig then 0 else 20)
        - (if s.hasWranglerConfig then 0 else 25)
  let structureScore : Int :=
    100 - (if !hasSrcDir s && decide (s.files.length > 5) then 20 else 0)
  let issues : List CohesivenessIssue :=
    (if s.hasPackageJson then [] else [missingPackageJsonIssue]) ++
    (if s.hasTsConfig then [] else [⟨.missing_config, .info, "Missing tsconfig.json",
      "Add TypeScript configuration", true⟩]) ++
    (if s.hasWranglerConfig then [] else [missingWranglerIssue]) ++
    (if !hasSrcDir s && decide (s.files.length > 5) then [noSrcDirIssue] else [])
  { overall := jsRoundDiv (configScore + structureScore + 100 + 100) 4
    structureScore := structureScore
    naming := 100
    dependencies := 100
    config := configScore
    issues := issues }

/-! Association-list model of a JS `Map<string, T>`: `Map.get` and `Map.set`
(replace an existing binding in place, otherwise append). -/

/-- `Map.get`: first binding of the key, if any. -/
def mapGet {α : Type} (m : List (String × α)) (k : String) : Option α :=
  (m.find? fun p => p.1 == k).map (·.2)

/-- `Map.set`: replace the binding in place when the key exists, else append. -/
def mapSet {α : Type} (m : List (String × α)) (k : String) (v : α) : List (String × α) :=
  if m.any (fun p => p.1 == k) then
    m.map fun p => if p.1 == k then (k, v) else p
  else m ++ [(k, v)]

/-! Job coordinator (`src/durable-objects/job-coordinator.ts`). -/

/-- Job lifecycle status (`JobStatus` in `src/types.ts`). -/
inductive JobStatus
  | pending
  | running
  | completed
  | failed
  | healing
  deriving DecidableEq, Repr

/-- Job / scrape-task priority (`JobPriority` in `src/types.ts`). -/
inductive JobPriority
  | critical
  | high
  | normal
  | low
  deriving DecidableEq, Repr

/-- An agent job (`AgentJob` in `src/types.ts`). Timestamps are epoch
milliseconds; `payload` and `result` (opaque bags never read by the
coordinator) and `type` (a string tag the coordinator only stores) are
dropped; `healingAttempts` is carried unchanged. -/
structure AgentJob where
  id : String
  status : JobStatus
  priority : JobPriority
  retryCount : Nat
  maxRetries : Nat
  healingAttempts : Nat
  createdAt : Int
  updatedAt : Int
  completedAt : Option Int
  error : Option String
  deriving DecidableEq, Repr

/-- The coordinator's global counters (`JobState.metrics`). -/
structure JobMetrics where
  totalCreated : Nat
  totalCompleted : Nat
  totalFailed : Nat
  totalHealing : Nat
  deriving DecidableEq, Repr

/-- Coordinator durable state: the jobs map plus metrics. -/
structure CoordState where
  jobs : List (String × AgentJob)
  metrics : JobMetrics
  deriving DecidableEq, Repr

/-- A partial update as sent to `updateJob` (`Partial<AgentJob>` restricted to
the fields the processors actually patch). A `some` field is present in the
JSON body, `none` is absent. -/
structure JobPatch where
  status : Option JobStatus := none
  retryCount : Option Nat := none
  error : Option String := none
  completedAt : Option Int := none
  deriving DecidableEq, Repr

/-- `JobCoordinator.updateJob` (job-coordinator.ts, lines 195-229): `none` when
the job id is unknown (404); otherwise bump the per-status counters when the
patch changes the status, stamp `completedAt` on a transition to `completed`,
then `Object.assign` the patch with a fresh `updatedAt`. -/
def updateJob (st : CoordState) (id : String) (p : JobPatch) (now : Int) : Option CoordState :=
  match mapGet st.jobs id with
  | none => none
  | some j =>
    let statusChanged := p.status.isSome && p.status != some j.status
    let m := st.metrics
    let m :=
      if statusChanged && p.status == some .completed then
        { m with totalCompleted := m.totalCompleted + 1 }
      else if statusChanged && p.status == some .failed then
        { m with totalFailed := m.totalFailed + 1 }
      else if statusChanged && p.status == some .healing then
        { m with totalHealing := m.totalHealing + 1 }
      else m
    let j := if statusChanged && p.status == some .completed then
        { j with completedAt := some now } else j
    let j := { j with
      status := p.status.getD j.status
      retryCount := p.retryCount.getD j.retryCount
      error := if p.error.isSome then p.error else j.error
      completedAt := if p.completedAt.isSome then p.completedAt else j.completedAt
      updatedAt := now }
    some { jobs := mapSet st.jobs id j, metrics := m }

/-- The deletion test of `JobCoordinator.cleanup` (job-coordinator.ts, lines
273-299): terminal status and effective completion time strictly older than
`now - 24h` (`cutoffTime = Date.now() - 24 * 60 * 60 * 1000`). -/
def cleanupDeletes (now : Int) (j : AgentJob) : Bool :=
  (j.status == .completed || j.status == .failed) &&
    decide (j.completedAt.getD j.updatedAt < now - 24 * 60 * 60 * 1000)

/-- Result of a cleanup run: the new state and the `{cleaned, remaining}` body. -/
structure CleanupOutcome where
  coord : CoordState
  cleaned : Nat
  remaining : Nat
  deriving DecidableEq, Repr

/-- `JobCoordinator.cleanup`: delete every job matching `cleanupDeletes`,
count the deletions, and report the surviving map size. -/
def cleanup (st : CoordState) (now : Int) : CleanupOutcome :=
  let kept := st.jobs.filter fun p => !cleanupDeletes now p.2
  { coord := { st with jobs := kept }
    cleaned := (st.jobs.filter fun p => cleanupDeletes now p.2).length
    remaining := kept.length }

/-! Self-healer (`src/durable-objects/self-healer.ts`). -/

/-- Healing strategies (`HealingStrategy` in `src/types.ts`). -/
inductive HealingStrategy
  | retry_with_backoff
  | clear_cache_retry
  | switch_endpoint
  | reduce_batch_size
  | notify_and_skip
  | full_reset
  | escalate_to_agent
  deriving DecidableEq, Repr

/-- Healing-task status (`HealingTask.status` in `src/types.ts`). -/
inductive TaskStatus
  | pending
  | attempting
  | resolved
  | escalated
  deriving DecidableEq, Repr

/-- A healing task (`HealingTask` in `src/types.ts`). Of `issue.context` only
the two keys the healer reads are kept: `repoName` (cache clearing /
full reset) and `batchSize` (batch reduction); `issue` severity/description,
timestamps and the stored `resolution` do not influence control flow and are
dropped. -/
structure HealingTask where
  id : String
  jobId : String
  strategy : HealingStrategy
  attempts : Nat
  maxAttempts : Nat
  status : TaskStatus
  contextRepoName : Option String
  contextBatchSize : Option Nat
  deriving DecidableEq, Repr

/-- Per-strategy configuration (self-healer.ts `STRATEGY_CONFIGS` entry type). -/
structure StrategyConfig where
  maxAttempts : Nat
  backoffMs : List Nat
  nextStrategy : Option HealingStrategy
  deriving DecidableEq, Repr

/-- The escalation graph as data (self-healer.ts, lines 368-407). -/
def STRATEGY_CONFIGS : HealingStrategy → StrategyConfig
  | .retry_with_backoff => ⟨5, [1000, 2000, 4000, 8000, 16000], some .clear_cache_retry⟩
  | .clear_cache_retry => ⟨2, [2000, 5000], some .switch_endpoint⟩
  | .switch_endpoint => ⟨3, [1000, 3000, 5000], some .reduce_batch_size⟩
  | .reduce_batch_size => ⟨3, [1000, 2000, 3000], some .notify_and_skip⟩
  | .notify_and_skip => ⟨1, [0], some .escalate_to_agent⟩
  | .full_reset => ⟨1, [5000], some .escalate_to_agent⟩
  | .escalate_to_agent => ⟨1, [0], none⟩

/-- The healer's global counters (self-healer.ts `HealingMetrics`). -/
structure HealingMetrics where
  totalAttempts : Nat
  successfulResolutions : Nat
  failedResolutions : Nat
  escalations : Nat
  averageTimeToResolve : Int
  deriving DecidableEq, Repr

/-- `SelfHealer.retryOriginalOperation` (self-healer.ts, lines 720-738):
re-queues the original job and succeeds iff `task.jobId` is truthy and not
`'worker-error'`. -/
def retryOriginalOperation (t : HealingTask) : Bool :=
  t.jobId != "" && t.jobId != "worker-error"

/-- Success of the strategy body executed by the `switch` in `attemptHealing`
(self-healer.ts, lines 600-642). `switch_endpoint` simulates a coin flip
(`Math.random() > 0.5`), passed in as the oracle `rnd`; `notify_and_skip`
always succeeds; `full_reset` succeeds iff `context.repoName` is present;
`escalate_to_agent` is always a non-success. -/
def bodyOutcome (t : HealingTask) (rnd : Bool) : Bool :=
  match t.strategy with
  | .retry_with_backoff => retryOriginalOperation t
  | .clear_cache_retry => retryOriginalOperation t
  | .switch_endpoint => rnd
  | .reduce_batch_size => retryOriginalOperation t
  | .notify_and_skip => true
  | .full_reset => t.contextRepoName.isSome
  | .escalate_to_agent => false

/-- Observable result of one `attemptHealing` call: the persisted task, the
updated metrics, whether the task was re-sent to the healing queue, and the
`success` flag of the resolution. -/
structure HealAttempt where
  task : HealingTask
  metrics : HealingMetrics
  requeuedHealing : Bool
  success : Bool
  deriving DecidableEq, Repr

/-- `SelfHealer.attemptHealing` (self-healer.ts, lines 582-701). `rnd` is the
`Math.random() > 0.5` draw of `trySwitchEndpoint`; `dt` the measured wall time
`Date.now() - startTime`. Mark attempting and bump `attempts` and
`totalAttempts`; run the strategy body (the `escalate_to_agent` case also sets
`escalated` and counts an escalation; `reduce_batch_size` halves the context
batch size); on success mark resolved, count it and fold `dt` into the rolling
average; on failure either transition to the next strategy (counters reset,
re-queued `pending`), or escalate when exhausted with no successor, or simply
re-queue `pending`. Per-strategy stats are bookkeeping that no claim touches
and are omitted. -/
def attemptHealing (m : HealingMetrics) (t0 : HealingTask) (rnd : Bool) (dt : Int) : HealAttempt :=
  let t1 : HealingTask := { t0 with status := .attempting, attempts := t0.attempts + 1 }
  let m1 : HealingMetrics := { m with totalAttempts := m.totalAttempts + 1 }
  let success := bodyOutcome t1 rnd
  let t2 : HealingTask := { t1 with
    status := if t1.strategy = .escalate_to_agent then .escalated else t1.status }
  let m2 : HealingMetrics := { m1 with
    escalations := if t1.strategy = .escalate_to_agent then m1.escalations + 1 else m1.escalations }
  let t3 : HealingTask := { t2 with
    contextBatchSize := if t2.strategy = .reduce_batch_size then
      some (max 1 ((t2.contextBatchSize.getD 10) / 2)) else t2.contextBatchSize }
  if success then
    { task := { t3 with status := .resolved }
      metrics := { m2 with
        successfulResolutions := m2.successfulResolutions + 1
        averageTimeToResolve :=
          jsRoundDiv (m2.averageTimeToResolve * m2.successfulResolutions + dt)
            (m2.successfulResolutions + 1) }
      requeuedHealing := false
      success := true }
  else
    match (STRATEGY_CONFIGS t3.strategy).nextStrategy with
    | some next =>
      if t3.attempts ≥ t3.maxAttempts then
        { task := { t3 with
            strategy := next
            attempts := 0
            maxAttempts := (STRATEGY_CONFIGS next).maxAttempts
            status := .pending }
          metrics := m2
          requeuedHealing := true
          success := false }
      else
        { task := { t3 with status := .pending }
          metrics := m2
          requeuedHealing := true
          success := false }
    | none =>
      if t3.attempts ≥ t3.maxAttempts then
        { task := { t3 with status := .escalated }
          metrics := { m2 with
            failedResolutions := m2.failedResolutions + 1
            escalations := m2.escalations + 1 }
          requeuedHealing := false
          success := false }
      else
        { task := { t3 with status := .pending }
          metrics := m2
          requeuedHealing := true
          success := false }

/-- `SelfHealer.processHealingTask` (self-healer.ts, lines 549-580): store the
task; when self-healing is disabled, mark it escalated and answer failure;
otherwise run `attemptHealing`. The final map holds the persisted task. -/
def processHealingTask (selfHealEnabled : Bool) (tasks : List (String × HealingTask))
    (m : HealingMetrics) (t : HealingTask) (rnd : Bool) (dt : Int) :
    List (String × HealingTask) × HealAttempt :=
  if !selfHealEnabled then
    let t' : HealingTask := { t with status := .escalated }
    (mapSet tasks t.id t', { task := t', metrics := m, requeuedHealing := false, success := false })
  else
    let r := attemptHealing m t rnd dt
    (mapSet tasks t.id r.task, r)

/-- `SelfHealer.resolveTask` (self-healer.ts, lines 818-839): 404 when the id
is unknown, otherwise unconditionally set the task's status to `resolved`. -/
def resolveTask (tasks : List (String × HealingTask)) (taskId : String) :
    Option (List (String × HealingTask)) :=
  match mapGet tasks taskId with
  | none => none
  | some t => some (mapSet tasks taskId { t with status := .resolved })

/-- An edge of the escalation graph: `b` is the configured on-exhaustion
successor of `a`. -/
def graphEdge (a b : HealingStrategy) : Prop :=
  (STRATEGY_CONFIGS a).nextStrategy = some b

instance : DecidablePred fun p : HealingStrategy × HealingStrategy => graphEdge p.1 p.2 :=
  fun p => by unfold graphEdge; infer_instance

/-- The strategies a task passes through when `attemptHealing` is iterated over
a list of oracle draws (one `(rnd, dt)` pair per delivered attempt). -/
def healTrace (m : HealingMetrics) (t : HealingTask) : List (Bool × Int) → List HealingStrategy
  | [] => [t.strategy]
  | o :: os =>
    t.strategy :: healTrace (attemptHealing m t o.1 o.2).metrics (attemptHealing m t o.1 o.2).task os

/-! Repo sync engine (`src/durable-objects/repo-sync-engine.ts`) and the
scrape pipeline glue (`src/queues/processors.ts`). -/

/-- Scrape kinds (`ScrapeType` in `src/types.ts`); `structure` is renamed
`structureScan` because `structure` is a Lean keyword. -/
inductive ScrapeType
  | full
  | incremental
  | structureScan
  | content
  | metadata
  deriving DecidableEq, Repr

/-- A scrape-queue message (`ScrapeTask` in `src/types.ts`). -/
structure ScrapeTask where
  id : String
  repoFullName : String
  scrapeType : ScrapeType
  priority : JobPriority
  etag : Option String
  deriving DecidableEq, Repr

/-- Scraped repository data (`RepoData` in `src/types.ts`), restricted to the
fields the engine and processors read: the identity, the structure and the
initial cohesiveness score. The source field `structure` is renamed
`repoStructure` (Lean keyword). -/
structure RepoData where
  fullName : String
  repoStructure : RepoStructure
  cohesiveness : CohesivenessScore
  deriving DecidableEq, Repr

/-- The fixed known-repo list (`BLACKROAD_REPOS` in repo-sync-engine.ts). -/
def BLACKROAD_REPOS : List String :=
  ["blackroad-prism-console", "blackroad-content-scheduler", "blackroad-os",
   "blackroad-cli", "blackroad-sdk", "blackroad-studio", "blackroad-api",
   "blackroad-dashboard", "blackroad-docs"]

/-- Sync-engine durable state (repo-sync-engine.ts `SyncEngineState`);
`lastFullSync` is an epoch-millisecond stamp, errors log omitted. -/
structure EngineState where
  repos : List (String × RepoData)
  lastFullSync : Option Int
  inProgress : Bool
  deriving DecidableEq, Repr

/-- A write to the shared KV store: key and optional `expirationTtl` seconds. -/
structure KVWrite where
  key : String
  ttl : Option Nat
  deriving DecidableEq, Repr

/-- Observable outcome of `triggerFullSync`: final state, the scrape tasks
enqueued, and whether the 409 conflict branch was taken. -/
structure FullSyncOutcome where
  engine : EngineState
  enqueued : List ScrapeTask
  conflict : Bool
  deriving DecidableEq, Repr

/-- `RepoSyncEngine.triggerFullSync` (repo-sync-engine.ts, lines 142-179).
When `inProgress`, answer the 409 conflict with nothing enqueued and the state
untouched; otherwise enqueue one full-scrape task per known short-name at
normal priority, record `lastFullSync := now` and end with `inProgress`
cleared (the source sets it true, enqueues, then resets it before the final
persist, so false is the persisted value). `freshId` abstracts the per-task
`crypto.randomUUID()`. -/
def triggerFullSync (st : EngineState) (org : String) (now : Int) (freshId : String) :
    FullSyncOutcome :=
  if st.inProgress then { engine := st, enqueued := [], conflict := true }
  else
    { engine := { st with lastFullSync := some now, inProgress := false }
      enqueued := BLACKROAD_REPOS.map fun r =>
        { id := freshId, repoFullName := org ++ "/" ++ r, scrapeType := .full,
          priority := .normal, etag := none }
      conflict := false }

/-- `RepoSyncEngine.syncRepo` (repo-sync-engine.ts, lines 237-251): enqueue a
single full-scrape task at high priority; the engine state is not touched. -/
def syncRepo (st : EngineState) (repoName : String) (freshId : String) :
    EngineState × ScrapeTask :=
  (st, { id := freshId, repoFullName := repoName, scrapeType := .full,
         priority := .high, etag := none })

/-- `RepoSyncEngine.updateRepo` (repo-sync-engine.ts, lines 384-391): upsert
the repo into the map and mirror it to the shared KV under `repo:{fullName}`
with no TTL. The source comment says "Called by scraper to update repo data",
but no route of the engine's `fetch` dispatches to it. -/
def updateRepo (st : EngineState) (d : RepoData) : EngineState × KVWrite :=
  ({ st with repos := mapSet st.repos d.fullName d },
   { key := "repo:" ++ d.fullName, ttl := none })

/-- The critical auto-fixable issues of a score, as filtered by
`triggerCohesivenessCheck` before enqueuing healing work. -/
def criticalAutoFixable (score : CohesivenessScore) : List CohesivenessIssue :=
  score.issues.filter fun i => i.severity == .critical && i.autoFixable

/-- The healing task `triggerCohesivenessCheck` sends for a repo with critical
auto-fixable issues (repo-sync-engine.ts, lines 208-225). Its context carries
`issues` and `repo` — not `repoName` — so both context fields of the model are
absent. -/
def cohesivenessHealingTask (repoName : String) (freshId : String) : HealingTask :=
  { id := freshId, jobId := "cohesiveness-" ++ repoName, strategy := .escalate_to_agent,
    attempts := 0, maxAttempts := 3, status := .pending,
    contextRepoName := none, contextBatchSize := none }

/-- The healing-enqueue pass of `RepoSyncEngine.triggerCohesivenessCheck`
(repo-sync-engine.ts, lines 181-235): rescore every stored repo, then send a
healing task for each repo whose fresh score has at least one critical
auto-fixable issue. Only the enqueued tasks are returned; the rescoring itself
is `calculateCohesiveness` per repo. -/
def triggerCohesivenessCheckHealing (repos : List (String × RepoStructure))
    (freshId : String) : List HealingTask :=
  (repos.filter fun r =>
    !(criticalAutoFixable (calculateCohesiveness r.2)).isEmpty).map
    fun r => cohesivenessHealingTask r.1 freshId

/-- Message disposition reported back to the queue. -/
inductive Disposition
  | ack
  | retry
  deriving DecidableEq, Repr

/-- The healing task `processScrapeQueue` enqueues when a scrape throws
(processors.ts, lines 186-202); its context holds the task and
`repoName: task.repoFullName`. -/
def scrapeFailureHealingTask (task : ScrapeTask) (freshId : String) : HealingTask :=
  { id := freshId, jobId := "scrape-" ++ task.id, strategy := .retry_with_backoff,
    attempts := 0, maxAttempts := 3, status := .pending,
    contextRepoName := some task.repoFullName, contextBatchSize := none }

/-- Observable outcome of processing one scrape-queue message. -/
structure ScrapeProcessOutcome where
  engine : EngineState
  kvWrites : List KVWrite
  scrapeEnqueued : List ScrapeTask
  healingEnqueued : List HealingTask
  disposition : Disposition
  deriving DecidableEq, Repr

/-- `processScrapeQueue` on a single message (processors.ts, lines 148-206).
`scrapeOutcome` is what `scraper.scrapeRepo` produced: an exception, `null`
(ETag match), or repo data. On data the processor fetches the engine's
`/sync/repo` route — which is `syncRepo`, an enqueue of a fresh scrape task —
and then writes `repo:{fullName}` to KV with a 1-hour TTL and acks. On an
exception it enqueues a `retry_with_backoff` healing task (maxAttempts 3) and
asks for redelivery. -/
def processScrapeMessage (st : EngineState) (task : ScrapeTask)
    (scrapeOutcome : Except String (Option RepoData)) (freshId : String) :
    ScrapeProcessOutcome :=
  match scrapeOutcome with
  | .error _ =>
    { engine := st, kvWrites := [], scrapeEnqueued := [],
      healingEnqueued := [scrapeFailureHealingTask task freshId],
      disposition := .retry }
  | .ok none =>
    { engine := st, kvWrites := [], scrapeEnqueued := [], healingEnqueued := [],
      disposition := .ack }
  | .ok (some _) =>
    let r := syncRepo st task.repoFullName freshId
    { engine := r.1
      kvWrites := [{ key := "repo:" ++ task.repoFullName, ttl := some 3600 }]
      scrapeEnqueued := [r.2], healingEnqueued := [], disposition := .ack }

/-- The healing task `processJobQueue` enqueues once a job's retries are
exhausted (processors.ts, lines 112-128); its context holds `jobId`,
`jobType` and the payload, none of which is `repoName` or `batchSize`. -/
def jobFailureHealingTask (job : AgentJob) (freshId : String) : HealingTask :=
  { id := freshId, jobId := job.id, strategy := .retry_with_backoff,
    attempts := 0, maxAttempts := 5, status := .pending,
    contextRepoName := none, contextBatchSize := none }

/-- Observable outcome of processing one job-queue message. -/
structure JobProcessOutcome where
  coord : CoordState
  healingEnqueued : List HealingTask
  disposition : Disposition
  deriving DecidableEq, Repr

/-- `processJobQueue` on a single message (processors.ts, lines 21-133). The
job is first patched to `running`; `handlerOk` abstracts whether the handler
dispatch returned or threw (with message `errMsg`). On success the job is
completed and the message acked. On failure, if `retryCount < maxRetries` (the
counters of the message body) the job is patched back to `pending` with the
retry count bumped and redelivery requested; otherwise it is patched to
`healing`, a `retry_with_backoff` healing task with maxAttempts 5 is enqueued,
and the message is acked. A 404 from the coordinator is ignored by the
processor (`getD`). -/
def processJobMessage (st : CoordState) (job : AgentJob) (handlerOk : Bool)
    (errMsg : String) (now : Int) (freshId : String) : JobProcessOutcome :=
  let st1 := (updateJob st job.id { status := some .running } now).getD st
  if handlerOk then
    { coord := (updateJob st1 job.id
        { status := some .completed, completedAt := some now } now).getD st1
      healingEnqueued := [], disposition := .ack }
  else if job.retryCount < job.maxRetries then
    { coord := (updateJob st1 job.id
        { status := some .pending, retryCount := some (job.retryCount + 1),
          error := some errMsg } now).getD st1
      healingEnqueued := [], disposition := .retry }
  else
    { coord := (updateJob st1 job.id
        { status := some .healing, error := some errMsg } now).getD st1
      healingEnqueued := [jobFailureHealingTask job freshId], disposition := .ack }

/-! Concrete inputs used by witnesses and counterexamples. -/

/-- The S2 scenario repo: ten source files, no configs, no README, no src/. -/
def exampleMissingConfigsRepo : RepoStructure :=
  { files := [⟨"a0.ts"⟩, ⟨"a1.ts"⟩, ⟨"a2.ts"⟩, ⟨"a3.ts"⟩, ⟨"a4.ts"⟩,
              ⟨"a5.ts"⟩, ⟨"a6.ts"⟩, ⟨"a7.ts"⟩, ⟨"a8.ts"⟩, ⟨"a9.ts"⟩]
    directories := []
    hasPackageJson := false
    hasWranglerConfig := false
    hasTsConfig := false }

/-- Healer metrics at zero. -/
def zeroHealingMetrics : HealingMetrics := ⟨0, 0, 0, 0, 0⟩

/-- A healing task that has already been escalated. -/
def exampleEscalatedTask : HealingTask :=
  { id := "t1", jobId := "cohesiveness-acme/foo", strategy := .escalate_to_agent,
    attempts := 1, maxAttempts := 3, status := .escalated,
    contextRepoName := none, contextBatchSize := none }

/-- An `escalate_to_agent` task with `maxAttempts = 3`, exactly as the sync
engine enqueues them, redelivered as pending with one attempt recorded. -/
def exampleEscalatePendingTask : HealingTask :=
  { exampleEscalatedTask with id := "t2", status := .pending }

/-- A fresh `escalate_to_agent` task with the configured `maxAttempts = 1`. -/
def exampleEscalateExhaustedTask : HealingTask :=
  { exampleEscalatedTask with id := "t3", status := .pending, attempts := 0, maxAttempts := 1 }

/-- An engine with no repos recorded and no sync in flight. -/
def engineEmpty : EngineState := { repos := [], lastFullSync := none, inProgress := false }

/-- A well-configured repo structure as the scraper would produce for S1. -/
def exampleRepoStructure : RepoStructure :=
  { files := [⟨"README.md"⟩, ⟨"package.json"⟩, ⟨"tsconfig.json"⟩, ⟨"wrangler.toml"⟩]
    directories := ["src"]
    hasPackageJson := true
    hasWranglerConfig := true
    hasTsConfig := true }

/-- The repo data the scraper returns for `acme/foo`. -/
def exampleRepoData : RepoData :=
  { fullName := "acme/foo", repoStructure := exampleRepoStructure,
    cohesiveness := calculateInitialCohesiveness exampleRepoStructure }

/-- The S1 scrape-queue message for `acme/foo`. -/
def exampleScrapeTask : ScrapeTask :=
  { id := "s1", repoFullName := "acme/foo", scrapeType := .full, priority := .normal, etag := none }

/-- The job patched to `pending` by the retry branch of the job processor. -/
def pendingRetryJob (j0 : AgentJob) (job : AgentJob) (errMsg : String) (now : Int) : AgentJob :=
  { j0 with
    status := .pending
    retryCount := job.retryCount + 1
    error := some errMsg
    updatedAt := now }

/-- The job patched to `healing` by the exhausted branch of the job processor. -/
def healingJob (j0 : AgentJob) (errMsg : String) (now : Int) : AgentJob :=
  { j0 with
    status := .healing
    error := some errMsg
    updatedAt := now }

/-- The stored job of the S3 scenario (`maxRetries = 2`). -/
def exampleStoredJob : AgentJob :=
  { id := "j1", status := .pending, priority := .normal, retryCount := 0, maxRetries := 2,
    healingAttempts := 0, createdAt := 0, updatedAt := 0, completedAt := none, error := none }

/-- A coordinator holding just the S3 job. -/
def exampleCoordState : CoordState :=
  { jobs := [("j1", exampleStoredJob)], metrics := ⟨1, 0, 0, 0⟩ }

/-- The S3 message body on its third delivery (`retryCount = maxRetries = 2`). -/
def exampleExhaustedMsgJob : AgentJob := { exampleStoredJob with retryCount := 2 }

/-- The S5 scenario jobs relative to `now = 0`: completed 25 h ago, completed
23 h ago, failed 30 h ago (the failed one has no `completedAt`). -/
def exampleCleanupState : CoordState :=
  { jobs :=
      [("c1", { id := "c1", status := .completed, priority := .normal, retryCount := 0,
                maxRetries := 3, healingAttempts := 0, createdAt := -100000000,
                updatedAt := -90000000, completedAt := some (-90000000), error := none }),
       ("c2", { id := "c2", status := .completed, priority := .normal, retryCount := 0,
                maxRetries := 3, healingAttempts := 0, createdAt := -100000000,
                updatedAt := -82800000, completedAt := some (-82800000), error := none }),
       ("f1", { id := "f1", status := .failed, priority := .normal, retryCount := 3,
                maxRetries := 3, healingAttempts := 0, createdAt := -120000000,
                updatedAt := -108000000, completedAt := none, error := some "boom" })]
    metrics := ⟨3, 2, 1, 0⟩ }

/-! Helper lemmas shared by the claim theorems. -/

/-- Every issue the engine scorer can emit is one of its five fixed issues. -/
theorem mem_calc_issues (s : RepoStructure) (i : CohesivenessIssue)
    (h : i ∈ (calculateCohesiveness s).issues) :
    i = missingPackageJsonIssue ∨ i = missingTsConfigIssue ∨ i = missingWranglerIssue ∨
    i = noSrcDirIssue ∨ i = missingReadmeIssue := by
  simp only [calculateCohesiveness, List.mem_append] at h
  rcases h with ((((h | h) | h) | h) | h) <;> split_ifs at h <;> simp_all

/-- The engine scorer only emits warning- or info-severity issues. -/
theorem calc_severity_not_critical (s : RepoStructure) :
    ∀ i ∈ (calculateCohesiveness s).issues, i.severity ≠ .critical := by
  intro i hi
  rcases mem_calc_issues s i hi with rfl | rfl | rfl | rfl | rfl <;> decide

/-- One `attemptHealing` call either keeps the strategy, or moves along a
configured graph edge with counters reset, after an exhausted failure. -/
theorem attemptHealing_strategy_step (m : HealingMetrics) (t : HealingTask)
    (rnd : Bool) (dt : Int) :
    (attemptHealing m t rnd dt).task.strategy = t.strategy ∨
    (graphEdge t.strategy (attemptHealing m t rnd dt).task.strategy ∧
      (attemptHealing m t rnd dt).task.attempts = 0 ∧
      (attemptHealing m t rnd dt).task.maxAttempts =
        (STRATEGY_CONFIGS (attemptHealing m t rnd dt).task.strategy).maxAttempts ∧
      (attemptHealing m t rnd dt).success = false ∧
      t.maxAttempts ≤ t.attempts + 1) := by
  simp only [attemptHealing]
  split
  · left
    rfl
  · split
    · rename_i next hnext
      split
      · rename_i hex
        right
        exact ⟨hnext, rfl, rfl, rfl, hex⟩
      · left
        rfl
    · split <;> left <;> rfl

/-- Iterated healing attempts only ever walk along edges of the escalation
graph (or stay put). -/
theorem healTrace_chain (m : HealingMetrics) (t : HealingTask) (os : List (Bool × Int)) :
    List.Chain' (fun a b => a = b ∨ graphEdge a b) (healTrace m t os) := by
  induction os generalizing m t with
  | nil => simp [healTrace]
  | cons o os ih =>
    rw [healTrace]
    refine List.chain'_cons'.mpr ⟨?_, ih _ _⟩
    intro b hb
    have hhead : (healTrace (attemptHealing m t o.1 o.2).metrics
        (attemptHealing m t o.1 o.2).task os).head? =
        some (attemptHealing m t o.1 o.2).task.strategy := by
      cases os <;> rw [healTrace] <;> rfl
    rw [hhead] at hb
    simp only [Option.mem_def, Option.some.injEq] at hb
    subst hb
    rcases attemptHealing_strategy_step m t o.1 o.2 with h | h
    · exact Or.inl h.symm
    · exact Or.inr h.1

/-- Replacing a present key in place leaves its first binding as the new value. -/
theorem find?_map_set {α : Type} (m : List (String × α)) (k : String) (v : α)
    (h : m.any (fun p => p.1 == k) = true) :
    (m.map fun p => if p.1 == k then (k, v) else p).find? (fun p => p.1 == k) = some (k, v) := by
  induction m with
  | nil => simp at h
  | cons q m ih =>
    rw [List.map_cons]
    by_cases hq : q.1 = k
    · rw [if_pos (by simpa using hq), List.find?_cons_of_pos]
      simp
    · rw [if_neg (by simpa using hq), List.find?_cons_of_neg]
      · exact ih (by simpa [hq] using h)
      · simpa using hq

/-- Reading back the key just written by `Map.set` yields the written value. -/
theorem mapGet_mapSet_self {α : Type} (m : List (String × α)) (k : String) (v : α) :
    mapGet (mapSet m k v) k = some v := by
  unfold mapGet mapSet
  by_cases h : m.any (fun p => p.1 == k) = true
  · rw [if_pos h, find?_map_set m k v h]
    rfl
  · rw [if_neg h]
    have hnone : m.find? (fun p => p.1 == k) = none := by
      rw [List.find?_eq_none]
      intro p hp hpk
      exact h (List.any_eq_true.mpr ⟨p, hp, hpk⟩)
    rw [List.find?_append, hnone]
    simp

/-- The cleanup deletion test, spelled out as a proposition. -/
theorem cleanupDeletes_iff (now : Int) (j : AgentJob) :
    cleanupDeletes now j = true ↔
      (j.status = .completed ∨ j.status = .failed) ∧
        j.completedAt.getD j.updatedAt < now - 24 * 60 * 60 * 1000 := by
  simp [cleanupDeletes]

/-! Claim theorems. -/

/-- Claim C1 (code bug): for a scrape message whose scraper call returns repo
data, the processor is specified to record the data in the sync engine so that
the engine's repo map contains the task's `repoFullName`, write
`repo:{fullName}` with a 1-hour TTL and ack. The code instead calls the
engine's `/sync/repo` route — `syncRepo`, which only enqueues another scrape
task — so on the concrete input the repo map stays empty, while the intended
ingestion operation `updateRepo` (never routed) would have recorded it. The KV
write and the ack do happen. -/
theorem scrape_processor_drops_repo_data :
    mapGet (processScrapeMessage engineEmpty exampleScrapeTask
      (Except.ok (some exampleRepoData)) "u1").engine.repos "acme/foo" = none ∧
    (processScrapeMessage engineEmpty exampleScrapeTask
      (Except.ok (some exampleRepoData)) "u1").engine = engineEmpty ∧
    (processScrapeMessage engineEmpty exampleScrapeTask
      (Except.ok (some exampleRepoData)) "u1").kvWrites =
        [{ key := "repo:acme/foo", ttl := some 3600 }] ∧
    (processScrapeMessage engineEmpty exampleScrapeTask
      (Except.ok (some exampleRepoData)) "u1").scrapeEnqueued =
        [{ id := "u1", repoFullName := "acme/foo", scrapeType := .full,
           priority := .high, etag := none }] ∧
    (processScrapeMessage engineEmpty exampleScrapeTask
      (Except.ok (some exampleRepoData)) "u1").healingEnqueued = [] ∧
    (processScrapeMessage engineEmpty exampleScrapeTask
      (Except.ok (some exampleRepoData)) "u1").disposition = .ack ∧
    mapGet (updateRepo engineEmpty exampleRepoData).1.repos "acme/foo" = some exampleRepoData := by
  decide

/-- Claim C2 (counterexample): on the S2 repo — zero config files, 10 files,
no README, no src/ — the scorer's overall is not the claimed
`round((60+100+100+25)/4) = 71`. -/
theorem missing_configs_overall_not_71 :
    exampleMissingConfigsRepo.hasPackageJson = false ∧
    exampleMissingConfigsRepo.hasTsConfig = false ∧
    exampleMissingConfigsRepo.hasWranglerConfig = false ∧
    exampleMissingConfigsRepo.files.length = 10 ∧
    hasReadme exampleMissingConfigsRepo = false ∧
    hasSrcDir exampleMissingConfigsRepo = false ∧
    (calculateCohesiveness exampleMissingConfigsRepo).overall ≠ 71 := by
  decide

/-- Claim C2 (amended): for a repo with zero config files, 10 files, no README
and no src/ directory, the scorer gives structure 70 (−20 for no src/, −10 for
no README) and config 25, hence overall `round((70+100+100+25)/4) = 74`, and
emits exactly 5 issues of which exactly 4 are auto-fixable and none critical. -/
theorem missing_configs_repo_scores (s : RepoStructure)
    (hp : s.hasPackageJson = false) (ht : s.hasTsConfig = false)
    (hw : s.hasWranglerConfig = false) (hf : s.files.length = 10)
    (hr : hasReadme s = false) (hd : hasSrcDir s = false) :
    (calculateCohesiveness s).structureScore = 70 ∧
    (calculateCohesiveness s).config = 25 ∧
    (calculateCohesiveness s).overall = 74 ∧
    (calculateCohesiveness s).issues.length = 5 ∧
    ((calculateCohesiveness s).issues.filter (fun i => i.autoFixable)).length = 4 ∧
    ∀ i ∈ (calculateCohesiveness s).issues, i.severity ≠ .critical := by
  refine ⟨?_, ?_, ?_, ?_, ?_, calc_severity_not_critical s⟩ <;>
    simp [calculateCohesiveness, hp, ht, hw, hf, hr, hd, jsRoundDiv,
      missingPackageJsonIssue, missingTsConfigIssue, missingWranglerIssue,
      noSrcDirIssue, missingReadmeIssue]

/-- Witness for C2's amended theorem at the concrete S2 repo. -/
theorem missing_configs_repo_scores_witness :
    (calculateCohesiveness exampleMissingConfigsRepo).overall = 74 ∧
    (calculateCohesiveness exampleMissingConfigsRepo).issues.length = 5 ∧
    ((calculateCohesiveness exampleMissingConfigsRepo).issues.filter
      (fun i => i.autoFixable)).length = 4 := by
  have h := missing_configs_repo_scores exampleMissingConfigsRepo rfl rfl rfl
    (by decide) (by decide) (by decide)
  exact ⟨h.2.2.1, h.2.2.2.1, h.2.2.2.2.1⟩

/-- Claim C3 (counterexample): an escalated task is flipped to `resolved` by
`resolveTask`, and an `escalate_to_agent` task with `maxAttempts = 3` (exactly
what `triggerCohesivenessCheck` enqueues) whose execution fails is set back to
`pending` and re-enqueued onto the healing queue rather than staying
escalated. -/
theorem terminal_status_not_preserved :
    resolveTask [("t1", exampleEscalatedTask)] "t1" =
      some [("t1", { exampleEscalatedTask with status := .resolved })] ∧
    (attemptHealing zeroHealingMetrics exampleEscalatePendingTask false 0).task.status = .pending ∧
    (attemptHealing zeroHealingMetrics exampleEscalatePendingTask false 0).requeuedHealing = true := by
  decide

/-- Claim C3 (amended): the escalation flow keeps an `escalate_to_agent` task
escalated and does not re-enqueue it only when its incremented attempt count
has reached its `maxAttempts` (as with the configured `maxAttempts = 1`);
with a larger `maxAttempts` the task is reset to `pending` and re-enqueued.
`resolveTask` unconditionally marks any existing task `resolved` — so a
resolved task stays resolved, but an escalated task can leave `escalated`. -/
theorem escalate_terminal_behavior :
    (∀ (m : HealingMetrics) (t : HealingTask) (rnd : Bool) (dt : Int),
      t.strategy = .escalate_to_agent →
      ((t.maxAttempts ≤ t.attempts + 1 →
        (attemptHealing m t rnd dt).task.status = .escalated ∧
        (attemptHealing m t rnd dt).requeuedHealing = false) ∧
       (t.attempts + 1 < t.maxAttempts →
        (attemptHealing m t rnd dt).task.status = .pending ∧
        (attemptHealing m t rnd dt).requeuedHealing = true))) ∧
    (∀ (tasks : List (String × HealingTask)) (taskId : String) (t : HealingTask),
      mapGet tasks taskId = some t →
      resolveTask tasks taskId = some (mapSet tasks taskId { t with status := .resolved })) := by
  constructor
  · intro m t rnd dt hstrat
    constructor
    · intro hex
      simp [attemptHealing, bodyOutcome, hstrat, STRATEGY_CONFIGS, hex]
    · intro hlt
      have : ¬ (t.maxAttempts ≤ t.attempts + 1) := by omega
      simp [attemptHealing, bodyOutcome, hstrat, STRATEGY_CONFIGS, this]
  · intro tasks taskId t h
    simp [resolveTask, h]

/-- Witness for C3's amended theorem at concrete tasks. -/
theorem escalate_terminal_behavior_witness :
    (attemptHealing zeroHealingMetrics exampleEscalateExhaustedTask false 0).task.status =
      .escalated ∧
    (attemptHealing zeroHealingMetrics exampleEscalateExhaustedTask false 0).requeuedHealing =
      false ∧
    resolveTask [("t1", exampleEscalatedTask)] "t1" =
      some (mapSet [("t1", exampleEscalatedTask)] "t1"
        { exampleEscalatedTask with status := .resolved }) := by
  have h := escalate_terminal_behavior
  refine ⟨?_, ?_, ?_⟩
  · exact ((h.1 zeroHealingMetrics exampleEscalateExhaustedTask false 0 rfl).1 (by decide)).1
  · exact ((h.1 zeroHealingMetrics exampleEscalateExhaustedTask false 0 rfl).1 (by decide)).2
  · exact h.2 [("t1", exampleEscalatedTask)] "t1" exampleEscalatedTask (by decide)

/-- Claim C4: in both scorers — the engine's check and the scraper's initial
computation — the overall field equals the JS-rounded arithmetic mean of the
four sub-scores of the produced score, after all penalties. -/
theorem overall_is_rounded_mean (s : RepoStructure) :
    (calculateCohesiveness s).overall =
      jsRoundDiv ((calculateCohesiveness s).structureScore + (calculateCohesiveness s).naming +
        (calculateCohesiveness s).dependencies + (calculateCohesiveness s).config) 4 ∧
    (calculateInitialCohesiveness s).overall =
      jsRoundDiv ((calculateInitialCohesiveness s).structureScore +
        (calculateInitialCohesiveness s).naming + (calculateInitialCohesiveness s).dependencies +
        (calculateInitialCohesiveness s).config) 4 := by
  constructor
  · rfl
  · simp only [calculateInitialCohesiveness, jsRoundDiv]
    congr 1
    ring

/-- Claim C5: a failed job-queue message with `retryCount < maxRetries` leaves
the job `pending` with `retryCount` bumped and asks for redelivery, enqueuing
nothing; once retries are exhausted the job is set to `healing` (never
`failed`, so `totalFailed` is untouched while `totalHealing` is incremented by
the coordinator), exactly one `retry_with_backoff` healing task with
`maxAttempts = 5` is enqueued, and the message is acked. Stated for messages
whose job id is registered with the coordinator. -/
theorem job_failure_retry_then_heal (st : CoordState) (job j0 : AgentJob)
    (errMsg : String) (now : Int) (freshId : String)
    (hmem : mapGet st.jobs job.id = some j0) :
    (job.retryCount < job.maxRetries →
      mapGet (processJobMessage st job false errMsg now freshId).coord.jobs job.id =
        some (pendingRetryJob j0 job errMsg now) ∧
      (processJobMessage st job false errMsg now freshId).coord.metrics = st.metrics ∧
      (processJobMessage st job false errMsg now freshId).healingEnqueued = [] ∧
      (processJobMessage st job false errMsg now freshId).disposition = .retry) ∧
    (¬ job.retryCount < job.maxRetries →
      mapGet (processJobMessage st job false errMsg now freshId).coord.jobs job.id =
        some (healingJob j0 errMsg now) ∧
      (processJobMessage st job false errMsg now freshId).coord.metrics =
        { st.metrics with totalHealing := st.metrics.totalHealing + 1 } ∧
      (processJobMessage st job false errMsg now freshId).healingEnqueued =
        [jobFailureHealingTask job freshId] ∧
      (processJobMessage st job false errMsg now freshId).disposition = .ack) := by
  constructor
  · intro hlt
    simp only [processJobMessage, updateJob, hmem, Bool.false_eq_true, if_false, if_pos hlt]
    simp [mapGet_mapSet_self, pendingRetryJob]
  · intro hge
    simp only [processJobMessage, updateJob, hmem, Bool.false_eq_true, if_false, if_neg hge]
    simp [mapGet_mapSet_self, healingJob]

/-- Witness for C5 on the S3 scenario's third delivery. -/
theorem job_failure_retry_then_heal_witness :
    mapGet (processJobMessage exampleCoordState exampleExhaustedMsgJob false
      "boom" 0 "h9").coord.jobs exampleExhaustedMsgJob.id =
      some (healingJob exampleStoredJob "boom" 0) ∧
    (processJobMessage exampleCoordState exampleExhaustedMsgJob false
      "boom" 0 "h9").coord.metrics =
      { exampleCoordState.metrics with
        totalHealing := exampleCoordState.metrics.totalHealing + 1 } ∧
    (processJobMessage exampleCoordState exampleExhaustedMsgJob false
      "boom" 0 "h9").healingEnqueued = [jobFailureHealingTask exampleExhaustedMsgJob "h9"] ∧
    (processJobMessage exampleCoordState exampleExhaustedMsgJob false
      "boom" 0 "h9").disposition = .ack := by
  exact (job_failure_retry_then_heal exampleCoordState exampleExhaustedMsgJob
    exampleStoredJob "boom" 0 "h9" (by decide)).2 (by decide)

/-- Claim C6: `triggerFullSync` under `inProgress` answers the 409 conflict
with nothing enqueued and the state unchanged; otherwise it enqueues exactly
one full-scrape task per known short-name at normal priority, records
`lastFullSync`, and ends with `inProgress` cleared. -/
theorem trigger_full_sync_spec (st : EngineState) (org : String) (now : Int) (freshId : String) :
    (st.inProgress = true →
      triggerFullSync st org now freshId = { engine := st, enqueued := [], conflict := true }) ∧
    (st.inProgress = false →
      (triggerFullSync st org now freshId).conflict = false ∧
      (triggerFullSync st org now freshId).engine =
        { st with lastFullSync := some now, inProgress := false } ∧
      (triggerFullSync st org now freshId).enqueued =
        BLACKROAD_REPOS.map (fun r =>
          { id := freshId, repoFullName := org ++ "/" ++ r, scrapeType := .full,
            priority := .normal, etag := none }) ∧
      (triggerFullSync st org now freshId).enqueued.length = BLACKROAD_REPOS.length ∧
      ∀ tsk ∈ (triggerFullSync st org now freshId).enqueued,
        tsk.scrapeType = .full ∧ tsk.priority = .normal) := by
  constructor
  · intro h
    simp [triggerFullSync, h]
  · intro h
    refine ⟨by simp [triggerFullSync, h], by simp [triggerFullSync, h],
      by simp [triggerFullSync, h], by simp [triggerFullSync, h], ?_⟩
    intro tsk htsk
    simp only [triggerFullSync, h, Bool.false_eq_true, if_false, List.mem_map] at htsk
    obtain ⟨r, _, rfl⟩ := htsk
    exact ⟨rfl, rfl⟩

/-- Witness for C6: an idle engine enqueues all nine known repos, a busy one
conflicts. -/
theorem trigger_full_sync_spec_witness :
    (triggerFullSync engineEmpty "BlackRoad-OS" 0 "u2").conflict = false ∧
    (triggerFullSync engineEmpty "BlackRoad-OS" 0 "u2").enqueued.length =
      BLACKROAD_REPOS.length ∧
    triggerFullSync { engineEmpty with inProgress := true } "BlackRoad-OS" 0 "u2" =
      { engine := { engineEmpty with inProgress := true }, enqueued := [], conflict := true } := by
  have h1 := trigger_full_sync_spec engineEmpty "BlackRoad-OS" 0 "u2"
  have h2 := trigger_full_sync_spec { engineEmpty with inProgress := true } "BlackRoad-OS" 0 "u2"
  exact ⟨(h1.2 rfl).1, (h1.2 rfl).2.2.2.1, h2.1 rfl⟩

/-- Claim C7: in every healing attempt the strategy either stays put or moves
along an edge of the configured escalation graph, and then only after a failed
execution with `attempts ≥ maxAttempts`, resetting `attempts` to 0 and taking
`maxAttempts` from the new strategy's config; consequently the strategy
sequence of any iterated run is a walk along graph edges. -/
theorem healing_strategy_escalation_graph :
    (∀ (m : HealingMetrics) (t : HealingTask) (rnd : Bool) (dt : Int),
      (attemptHealing m t rnd dt).task.strategy = t.strategy ∨
      (graphEdge t.strategy (attemptHealing m t rnd dt).task.strategy ∧
        (attemptHealing m t rnd dt).task.attempts = 0 ∧
        (attemptHealing m t rnd dt).task.maxAttempts =
          (STRATEGY_CONFIGS (attemptHealing m t rnd dt).task.strategy).maxAttempts ∧
        (attemptHealing m t rnd dt).success = false ∧
        t.maxAttempts ≤ t.attempts + 1)) ∧
    (∀ (m : HealingMetrics) (t : HealingTask) (os : List (Bool × Int)),
      List.Chain' (fun a b => a = b ∨ graphEdge a b) (healTrace m t os)) :=
  ⟨attemptHealing_strategy_step, healTrace_chain⟩

/-- Claim C8: a cleanup run deletes a job iff its status is completed or
failed and its effective completion time (`completedAt`, else `updatedAt`) is
older than 24 hours before the run; survivors are exactly the other jobs,
metrics are untouched, and `{cleaned, remaining}` counts deletions and the
remaining map size. -/
theorem cleanup_survivors_iff (st : CoordState) (now : Int) :
    (∀ p : String × AgentJob, p ∈ (cleanup st now).coord.jobs ↔
      p ∈ st.jobs ∧ (¬(p.2.status = .completed ∨ p.2.status = .failed) ∨
        now - 24 * 60 * 60 * 1000 ≤ p.2.completedAt.getD p.2.updatedAt)) ∧
    (cleanup st now).coord.metrics = st.metrics ∧
    (cleanup st now).cleaned = st.jobs.countP (fun p =>
      decide ((p.2.status = .completed ∨ p.2.status = .failed) ∧
        p.2.completedAt.getD p.2.updatedAt < now - 24 * 60 * 60 * 1000)) ∧
    (cleanup st now).remaining = (cleanup st now).coord.jobs.length ∧
    (cleanup st now).cleaned + (cleanup st now).remaining = st.jobs.length := by
  refine ⟨?_, rfl, ?_, rfl, ?_⟩
  · intro p
    simp only [cleanup, List.mem_filter, Bool.not_eq_true']
    constructor
    · rintro ⟨hp, hdel⟩
      refine ⟨hp, ?_⟩
      by_cases hterm : p.2.status = .completed ∨ p.2.status = .failed
      · right
        by_contra hlt
        have : cleanupDeletes now p.2 = true :=
          (cleanupDeletes_iff now p.2).mpr ⟨hterm, by omega⟩
        rw [this] at hdel
        exact absurd hdel (by simp)
      · left
        exact hterm
    · rintro ⟨hp, hcond⟩
      refine ⟨hp, ?_⟩
      cases hd : cleanupDeletes now p.2
      · rfl
      · exfalso
        rcases (cleanupDeletes_iff now p.2).mp hd with ⟨hterm, hlt⟩
        rcases hcond with hc | hc
        · exact hc hterm
        · omega
  · simp only [cleanup, List.countP_eq_length_filter]
    congr 1
    apply List.filter_congr
    intro p _
    by_cases h1 : p.2.status = .completed <;>
      by_cases h2 : p.2.status = .failed <;>
        by_cases h3 : p.2.completedAt.getD p.2.updatedAt < now - 24 * 60 * 60 * 1000 <;>
          simp [cleanupDeletes, h1, h2, h3]
  · simp only [cleanup]
    exact (List.length_eq_length_filter_add
      (fun p : String × AgentJob => cleanupDeletes now p.2)).symm

/-- Witness for C8 on the S5 scenario: of three terminal jobs at 25 h, 23 h
and 30 h of age, cleanup deletes two and keeps one. -/
theorem cleanup_survivors_iff_witness :
    (cleanup exampleCleanupState 0).cleaned = 2 ∧
    (cleanup exampleCleanupState 0).remaining = 1 := by
  have h := cleanup_survivors_iff exampleCleanupState 0
  constructor
  · rw [h.2.2.1]
    decide
  · rw [h.2.2.2.1]
    decide

/-- Claim C9: the engine scorer never emits a critical issue, so no repo ever
has a critical auto-fixable issue and `triggerCohesivenessCheck` never
enqueues a healing task. -/
theorem cohesiveness_check_never_heals (repos : List (String × RepoStructure))
    (freshId : String) :
    triggerCohesivenessCheckHealing repos freshId = [] ∧
    ∀ s : RepoStructure, criticalAutoFixable (calculateCohesiveness s) = [] := by
  have hfix : ∀ s : RepoStructure, criticalAutoFixable (calculateCohesiveness s) = [] := by
    intro s
    apply List.filter_eq_nil_iff.mpr
    intro i hi
    have := calc_severity_not_critical s i hi
    simp_all
  refine ⟨?_, hfix⟩
  unfold triggerCohesivenessCheckHealing
  rw [List.filter_eq_nil_iff.mpr]
  · rfl
  · intro r _
    simp [hfix r.2]

/-- Claim C10: a single healing attempt on an `escalate_to_agent` task with
`maxAttempts = 1` bumps `escalations` by exactly 2 (once in the strategy body,
once in the exhaustion branch), `failedResolutions` by exactly 1, and is never
counted as a success. -/
theorem escalate_to_agent_double_escalation_count (m : HealingMetrics) (t : HealingTask)
    (rnd : Bool) (dt : Int)
    (hstrat : t.strategy = .escalate_to_agent) (hmax : t.maxAttempts = 1) :
    (attemptHealing m t rnd dt).metrics.escalations = m.escalations + 2 ∧
    (attemptHealing m t rnd dt).metrics.failedResolutions = m.failedResolutions + 1 ∧
    (attemptHealing m t rnd dt).metrics.successfulResolutions = m.successfulResolutions ∧
    (attemptHealing m t rnd dt).success = false := by
  simp [attemptHealing, bodyOutcome, hstrat, hmax, STRATEGY_CONFIGS]

/-- Witness for C10 at a fresh `escalate_to_agent` task with zeroed metrics. -/
theorem escalate_to_agent_double_escalation_count_witness :
    (attemptHealing zeroHealingMetrics exampleEscalateExhaustedTask false 0).metrics.escalations =
      zeroHealingMetrics.escalations + 2 ∧
    (attemptHealing zeroHealingMetrics
        exampleEscalateExhaustedTask false 0).metrics.failedResolutions =
      zeroHealingMetrics.failedResolutions + 1 ∧
    (attemptHealing zeroHealingMetrics
        exampleEscalateExhaustedTask false 0).metrics.successfulResolutions =
      zeroHealingMetrics.successfulResolutions ∧
    (attemptHealing zeroHealingMetrics exampleEscalateExhaustedTask false 0).success = false :=
  escalate_to_agent_double_escalation_count zeroHealingMetrics
    exampleEscalateExhaustedTask false 0 rfl rfl

end ContentScheduler
